import Mathlib

/-!
Verification of `scripts/prepare_docs.py`.

The script resolves a project root as `ROOT = Path(__file__).parent.parent`,
then `prepare_index_file` executes
`(ROOT / "docs" / "index.md").write_text((ROOT / "README.md").read_text())`
and `main` calls `prepare_index_file` once.

We embed the filesystem as a map from paths (lists of components) to optional
text contents, together with a predicate recording which directories exist.
`read_text` and `write_text` mirror `pathlib.Path.read_text` / `write_text`:
a read of a missing file raises `FileNotFoundError`; a write into a missing
parent directory raises `FileNotFoundError`; a successful write replaces the
file's whole content, creating it if absent.  Since Python evaluates the
argument of `write_text` before the call, the read completes before any write
starts; on an error the filesystem state is returned unchanged.
-/

/-- Filesystem paths, as lists of components. -/
abbrev FsPath := List String

/-- Parent directory of a path, as computed by `pathlib.Path.parent`
for a relative-component view: drop the last component. -/
def FsPath.parent (p : FsPath) : FsPath := p.dropLast

/-- Filesystem state: text file contents and existing directories. -/
structure FS where
  files : FsPath → Option String
  dirs : FsPath → Bool

/-- Errors raised by the file operations the script performs.  Both a read of
a missing file and a write into a missing directory raise Python's
`FileNotFoundError`, carrying the offending path. -/
inductive FsError where
  | fileNotFound : FsPath → FsError
deriving DecidableEq

/-- Embedding of `pathlib.Path.read_text`: return the file's text content,
or raise `FileNotFoundError` if the file does not exist. -/
def FS.read_text (fs : FS) (p : FsPath) : Except FsError String :=
  match fs.files p with
  | some c => .ok c
  | none => .error (.fileNotFound p)

/-- Embedding of `pathlib.Path.write_text`: if the parent directory exists,
replace the file's content (creating the file if absent) and leave every
other file and all directories untouched; otherwise raise
`FileNotFoundError`.  No intermediate directories are created. -/
def FS.write_text (fs : FS) (p : FsPath) (content : String) : Except FsError FS :=
  if fs.dirs p.parent then
    .ok { fs with files := fun q => if q = p then some content else fs.files q }
  else
    .error (.fileNotFound p.parent)

/-- Embedding of `ROOT = Path(__file__).parent.parent`: the parent of the
parent of the script file's own path. -/
def ROOT (scriptFile : FsPath) : FsPath := scriptFile.parent.parent

/-- The source path `ROOT / "README.md"`. -/
def readmePath (root : FsPath) : FsPath := root ++ ["README.md"]

/-- The directory `ROOT / "docs"`. -/
def docsDir (root : FsPath) : FsPath := root ++ ["docs"]

/-- The destination path `ROOT / "docs" / "index.md"`. -/
def indexPath (root : FsPath) : FsPath := root ++ ["docs", "index.md"]

/-- Embedding of `prepare_index_file`:
`(ROOT / "docs" / "index.md").write_text((ROOT / "README.md").read_text())`.
Python evaluates the `read_text` argument before invoking `write_text`, so
the read happens first; either error leaves the filesystem unchanged and is
propagated (the second component records the raised exception, `none`
meaning normal return). -/
def prepare_index_file (root : FsPath) (fs : FS) : FS × Option FsError :=
  match fs.read_text (readmePath root) with
  | .error e => (fs, some e)
  | .ok c =>
    match fs.write_text (indexPath root) c with
    | .error e => (fs, some e)
    | .ok fs' => (fs', none)

/-- Embedding of `main` (named `script_main` here since Lean reserves `main`):
it calls `prepare_index_file` once and returns; no exception is caught,
wrapped or retried. -/
def script_main (root : FsPath) (fs : FS) : FS × Option FsError :=
  prepare_index_file root fs

/-- Process exit status of a run: Python exits with status 0 on normal
return and status 1 on an uncaught exception. -/
def exitStatus (r : FS × Option FsError) : Nat :=
  match r.2 with
  | none => 0
  | some _ => 1

/-- Running the script from a working directory `cwd`.  Under Python ≥ 3.9
(the script requires ≥ 3.13) `__file__` of the executed script is an
absolute path, so `Path(__file__)` — and hence `ROOT` and every path the
script touches — does not involve the working directory at all. -/
def runFromCwd (_cwd : FsPath) (scriptFile : FsPath) (fs : FS) : FS × Option FsError :=
  prepare_index_file (ROOT scriptFile) fs

/-! Basic path facts. -/

theorem indexPath_parent (root : FsPath) : (indexPath root).parent = docsDir root := by
  show (root ++ ["docs", "index.md"]).dropLast = root ++ ["docs"]
  rw [show root ++ ["docs", "index.md"] = (root ++ ["docs"]) ++ ["index.md"] by simp]
  exact List.dropLast_concat ..

theorem readme_ne_index (root : FsPath) : readmePath root ≠ indexPath root := by
  intro h
  have hlen := congrArg List.length h
  simp [readmePath, indexPath] at hlen

/-! Characterisation of a successful run and inversion of success. -/

theorem prepare_ok (root : FsPath) (fs : FS) (c : String)
    (hsrc : fs.files (readmePath root) = some c)
    (hdir : fs.dirs (docsDir root) = true) :
    prepare_index_file root fs =
      ({ files := fun q => if q = indexPath root then some c else fs.files q,
         dirs := fs.dirs }, none) := by
  unfold prepare_index_file FS.read_text FS.write_text
  rw [hsrc, indexPath_parent, hdir]
  simp

theorem prepare_ok_inv (root : FsPath) (fs : FS)
    (h : (prepare_index_file root fs).2 = none) :
    ∃ c, fs.files (readmePath root) = some c ∧ fs.dirs (docsDir root) = true := by
  cases hsrc : fs.files (readmePath root) with
  | none =>
    exfalso
    simp [prepare_index_file, FS.read_text, hsrc] at h
  | some c =>
    refine ⟨c, rfl, ?_⟩
    by_contra hdir
    rw [Bool.not_eq_true] at hdir
    simp [prepare_index_file, FS.read_text, FS.write_text, hsrc,
      indexPath_parent, hdir] at h

/-! Concrete filesystem states, used to witness the theorems below.  The
sample contents follow the spec's scenario: the README holds markdown text
and the destination pre-exists with stale content. -/

def sampleRoot : FsPath := ["repo"]

def sampleFS : FS where
  files := fun p =>
    if p = ["repo", "README.md"] then some "# Project\n\nHello world.\n"
    else if p = ["repo", "docs", "index.md"] then some "stale"
    else none
  dirs := fun p => p = ["repo"] ∨ p = ["repo", "docs"]

def emptyReadmeFS : FS where
  files := fun p => if p = ["repo", "README.md"] then some "" else none
  dirs := fun p => p = ["repo"] ∨ p = ["repo", "docs"]

def noReadmeFS : FS where
  files := fun p => if p = ["repo", "docs", "index.md"] then some "stale" else none
  dirs := fun p => p = ["repo"] ∨ p = ["repo", "docs"]

def noDocsDirFS : FS where
  files := fun p => if p = ["repo", "README.md"] then some "# Project\n\nHello world.\n" else none
  dirs := fun p => p = ["repo"]

def sampleFS2 : FS where
  files := fun p =>
    if p = ["repo", "README.md"] then some "# Project\n\nHello world.\n"
    else if p = ["repo", "LICENSE"] then some "mit"
    else none
  dirs := fun p => p = ["repo"] ∨ p = ["repo", "docs"]

/-- C1 (Fidelity): whenever the source file `R/README.md` holds text `c` and
the `docs` directory exists, `prepare_index_file` returns normally and the
destination file `R/docs/index.md` afterwards holds exactly `c` — no
transformation, truncation or re-encoding. -/
theorem prepare_index_file_fidelity (root : FsPath) (fs : FS) (c : String)
    (hsrc : fs.files (readmePath root) = some c)
    (hdir : fs.dirs (docsDir root) = true) :
    (prepare_index_file root fs).2 = none ∧
    (prepare_index_file root fs).1.files (indexPath root) = some c := by
  rw [prepare_ok root fs c hsrc hdir]
  simp

/-- Witness for C1: the spec's scenario, README text copied verbatim. -/
theorem prepare_index_file_fidelity_witness :
    sampleFS.files (readmePath sampleRoot) = some "# Project\n\nHello world.\n" ∧
    sampleFS.dirs (docsDir sampleRoot) = true ∧
    (prepare_index_file sampleRoot sampleFS).1.files (indexPath sampleRoot) =
      some "# Project\n\nHello world.\n" :=
  ⟨rfl, rfl,
    (prepare_index_file_fidelity sampleRoot sampleFS "# Project\n\nHello world.\n" rfl rfl).2⟩

/-- C2 (Overwrite): when the destination pre-exists with content `d ≠ c` and
the source holds `c`, a run leaves the destination holding `c` and not `d`:
full replacement, no merge, append or diffing. -/
theorem prepare_index_file_overwrite (root : FsPath) (fs : FS) (c d : String)
    (hdst : fs.files (indexPath root) = some d)
    (hne : d ≠ c)
    (hsrc : fs.files (readmePath root) = some c)
    (hdir : fs.dirs (docsDir root) = true) :
    (prepare_index_file root fs).1.files (indexPath root) = some c ∧
    (prepare_index_file root fs).1.files (indexPath root) ≠ some d := by
  rw [prepare_ok root fs c hsrc hdir]
  refine ⟨by simp, ?_⟩
  simp only [if_pos rfl]
  intro hcontra
  exact hne (Option.some.inj hcontra).symm

/-- Witness for C2: destination pre-held the stale text and now holds the
README text. -/
theorem prepare_index_file_overwrite_witness :
    sampleFS.files (indexPath sampleRoot) = some "stale" ∧
    (prepare_index_file sampleRoot sampleFS).1.files (indexPath sampleRoot) =
      some "# Project\n\nHello world.\n" :=
  ⟨rfl,
    (prepare_index_file_overwrite sampleRoot sampleFS "# Project\n\nHello world.\n" "stale"
      rfl (by decide) rfl rfl).1⟩

/-- C3 (Idempotence): if a run returns normally, running again on the
resulting state also returns normally and leaves the destination content
identical to what the first run produced (the source file is untouched by
the first run, by the frame of the write). -/
theorem prepare_index_file_idempotent (root : FsPath) (fs : FS)
    (h : (prepare_index_file root fs).2 = none) :
    (prepare_index_file root (prepare_index_file root fs).1).2 = none ∧
    (prepare_index_file root (prepare_index_file root fs).1).1.files (indexPath root) =
      (prepare_index_file root fs).1.files (indexPath root) := by
  obtain ⟨c, hsrc, hdir⟩ := prepare_ok_inv root fs h
  rw [prepare_ok root fs c hsrc hdir]
  dsimp only
  have hsrc1 :
      FS.files ⟨fun q => if q = indexPath root then some c else fs.files q, fs.dirs⟩
        (readmePath root) = some c := by
    simp only [if_neg (readme_ne_index root)]
    exact hsrc
  rw [prepare_ok root _ c hsrc1 hdir]
  simp

/-- Witness for C3: a second run over the spec scenario's result changes
nothing in the destination. -/
theorem prepare_index_file_idempotent_witness :
    (prepare_index_file sampleRoot sampleFS).2 = none ∧
    (prepare_index_file sampleRoot (prepare_index_file sampleRoot sampleFS).1).1.files
        (indexPath sampleRoot) =
      (prepare_index_file sampleRoot sampleFS).1.files (indexPath sampleRoot) :=
  ⟨rfl, (prepare_index_file_idempotent sampleRoot sampleFS rfl).2⟩

/-- C4 (Missing-source failure, atomicity): if `R/README.md` does not exist,
the run raises `FileNotFoundError` for that path and the whole filesystem —
in particular the destination file, whether it pre-existed or not — is left
exactly as it was: the read fails before any write begins. -/
theorem prepare_index_file_missing_source (root : FsPath) (fs : FS)
    (h : fs.files (readmePath root) = none) :
    prepare_index_file root fs = (fs, some (.fileNotFound (readmePath root))) ∧
    (prepare_index_file root fs).1.files (indexPath root) = fs.files (indexPath root) := by
  have heq : prepare_index_file root fs = (fs, some (.fileNotFound (readmePath root))) := by
    simp [prepare_index_file, FS.read_text, h]
  exact ⟨heq, by rw [heq]⟩

/-- Witness for C4: no README; the pre-existing stale destination survives. -/
theorem prepare_index_file_missing_source_witness :
    noReadmeFS.files (readmePath sampleRoot) = none ∧
    prepare_index_file sampleRoot noReadmeFS =
      (noReadmeFS, some (.fileNotFound (readmePath sampleRoot))) ∧
    (prepare_index_file sampleRoot noReadmeFS).1.files (indexPath sampleRoot) = some "stale" :=
  ⟨rfl, (prepare_index_file_missing_source sampleRoot noReadmeFS rfl).1,
    by rw [(prepare_index_file_missing_source sampleRoot noReadmeFS rfl).1]; rfl⟩

/-- C5 (Missing-destination-directory failure): if `R/docs` does not exist,
the run raises a `FileNotFoundError` (the not-found class covering Python's
behaviour here) and leaves the filesystem untouched — no file is created and
no intermediate directory is made. -/
theorem prepare_index_file_missing_docs_dir (root : FsPath) (fs : FS)
    (hdir : fs.dirs (docsDir root) = false) :
    (prepare_index_file root fs).1 = fs ∧
    ∃ p, (prepare_index_file root fs).2 = some (.fileNotFound p) := by
  cases hsrc : fs.files (readmePath root) with
  | none =>
    exact ⟨by simp [prepare_index_file, FS.read_text, hsrc], readmePath root,
      by simp [prepare_index_file, FS.read_text, hsrc]⟩
  | some c =>
    refine ⟨?_, docsDir root, ?_⟩ <;>
      simp [prepare_index_file, FS.read_text, FS.write_text, hsrc, indexPath_parent, hdir]

/-- Witness for C5: README present but no `docs` directory; nothing is
written and the error names the missing directory. -/
theorem prepare_index_file_missing_docs_dir_witness :
    noDocsDirFS.dirs (docsDir sampleRoot) = false ∧
    (prepare_index_file sampleRoot noDocsDirFS).1 = noDocsDirFS ∧
    (∃ p, (prepare_index_file sampleRoot noDocsDirFS).2 = some (.fileNotFound p)) :=
  ⟨rfl, (prepare_index_file_missing_docs_dir sampleRoot noDocsDirFS rfl).1,
    (prepare_index_file_missing_docs_dir sampleRoot noDocsDirFS rfl).2⟩

/-- C6 (Root-path resolution): for a script deployed at
`R/scripts/prepare_docs.py`, `ROOT` resolves to `R`, a run of the script is
exactly `prepare_index_file` over that root — so both `R/README.md` and
`R/docs/index.md` hang off the same `R` — and the run's outcome is
independent of the process's current working directory. -/
theorem root_resolution_cwd_independent (r cwd1 cwd2 scriptFile : FsPath) (fs : FS) :
    ROOT (r ++ ["scripts", "prepare_docs.py"]) = r ∧
    runFromCwd cwd1 (r ++ ["scripts", "prepare_docs.py"]) fs = prepare_index_file r fs ∧
    runFromCwd cwd1 scriptFile fs = runFromCwd cwd2 scriptFile fs := by
  have hroot : ROOT (r ++ ["scripts", "prepare_docs.py"]) = r := by
    show ((r ++ ["scripts", "prepare_docs.py"]).dropLast).dropLast = r
    rw [show r ++ ["scripts", "prepare_docs.py"]
          = (r ++ ["scripts"]) ++ ["prepare_docs.py"] by simp,
      List.dropLast_concat, List.dropLast_concat]
  exact ⟨hroot, by rw [runFromCwd, hroot], rfl⟩

/-- C7 (Entry-point behaviour): `main` is exactly one call to
`prepare_index_file` — the raised error, if any, is passed through unchanged,
neither caught nor wrapped nor retried — and the process exit status is zero
precisely when no exception was raised, non-zero otherwise. -/
theorem script_main_entry_point (root : FsPath) (fs : FS) :
    script_main root fs = prepare_index_file root fs ∧
    (script_main root fs).2 = (prepare_index_file root fs).2 ∧
    (exitStatus (script_main root fs) = 0 ↔ (script_main root fs).2 = none) ∧
    (∀ e, (script_main root fs).2 = some e → exitStatus (script_main root fs) ≠ 0) := by
  refine ⟨rfl, rfl, ?_, ?_⟩ <;>
    cases h : (script_main root fs).2 <;>
      simp [exitStatus, h]

/-- C8 (Empty source): an empty `R/README.md` is copied successfully, leaving
`R/docs/index.md` empty as well. -/
theorem prepare_index_file_empty_source (root : FsPath) (fs : FS)
    (hsrc : fs.files (readmePath root) = some "")
    (hdir : fs.dirs (docsDir root) = true) :
    (prepare_index_file root fs).2 = none ∧
    (prepare_index_file root fs).1.files (indexPath root) = some "" := by
  rw [prepare_ok root fs "" hsrc hdir]
  simp

/-- Witness for C8: a zero-length README yields a zero-length index. -/
theorem prepare_index_file_empty_source_witness :
    emptyReadmeFS.files (readmePath sampleRoot) = some "" ∧
    (prepare_index_file sampleRoot emptyReadmeFS).2 = none ∧
    (prepare_index_file sampleRoot emptyReadmeFS).1.files (indexPath sampleRoot) = some "" :=
  ⟨rfl, (prepare_index_file_empty_source sampleRoot emptyReadmeFS rfl rfl).1,
    (prepare_index_file_empty_source sampleRoot emptyReadmeFS rfl rfl).2⟩

/-- C9 (Frame): a successful run writes only `R/docs/index.md`: every other
file keeps its content, no directory is created or removed, and in
particular `R/README.md` is only read, never written. -/
theorem prepare_index_file_frame (root : FsPath) (fs : FS)
    (h : (prepare_index_file root fs).2 = none) :
    (∀ q, q ≠ indexPath root → (prepare_index_file root fs).1.files q = fs.files q) ∧
    (prepare_index_file root fs).1.dirs = fs.dirs ∧
    (prepare_index_file root fs).1.files (readmePath root) = fs.files (readmePath root) := by
  obtain ⟨c, hsrc, hdir⟩ := prepare_ok_inv root fs h
  rw [prepare_ok root fs c hsrc hdir]
  refine ⟨fun q hq => ?_, rfl, ?_⟩
  · simp [if_neg hq]
  · simp [if_neg (readme_ne_index root)]

/-- Witness for C9: after the scenario run, the README and an unrelated path
are untouched and the directories are unchanged. -/
theorem prepare_index_file_frame_witness :
    (prepare_index_file sampleRoot sampleFS).2 = none ∧
    (prepare_index_file sampleRoot sampleFS).1.files (readmePath sampleRoot) =
      sampleFS.files (readmePath sampleRoot) ∧
    (prepare_index_file sampleRoot sampleFS).1.dirs = sampleFS.dirs :=
  ⟨rfl, (prepare_index_file_frame sampleRoot sampleFS rfl).2.2,
    (prepare_index_file_frame sampleRoot sampleFS rfl).2.1⟩

/-- C10 (Determinism): the destination content after a successful run is a
function of the source file's content alone — two successful runs over
states agreeing on `R/README.md` produce equal `R/docs/index.md` contents,
whatever else (other files, prior destination content) differs.  No
command-line argument or environment input exists in the embedding at all. -/
theorem prepare_index_file_deterministic (root : FsPath) (fs1 fs2 : FS)
    (hsrc : fs1.files (readmePath root) = fs2.files (readmePath root))
    (h1 : (prepare_index_file root fs1).2 = none)
    (h2 : (prepare_index_file root fs2).2 = none) :
    (prepare_index_file root fs1).1.files (indexPath root) =
      (prepare_index_file root fs2).1.files (indexPath root) := by
  obtain ⟨c1, hs1, hd1⟩ := prepare_ok_inv root fs1 h1
  obtain ⟨c2, hs2, hd2⟩ := prepare_ok_inv root fs2 h2
  have hc : c1 = c2 := by
    rw [hs1, hs2] at hsrc
    exact Option.some.inj hsrc
  subst hc
  rw [prepare_ok root fs1 c1 hs1 hd1, prepare_ok root fs2 c1 hs2 hd2]
  simp

/-- Witness for C10: two states share the README but differ elsewhere (one
has a stale destination, the other an extra file); the resulting index
contents coincide. -/
theorem prepare_index_file_deterministic_witness :
    sampleFS.files (readmePath sampleRoot) = sampleFS2.files (readmePath sampleRoot) ∧
    (prepare_index_file sampleRoot sampleFS).1.files (indexPath sampleRoot) =
      (prepare_index_file sampleRoot sampleFS2).1.files (indexPath sampleRoot) :=
  ⟨rfl, prepare_index_file_deterministic sampleRoot sampleFS sampleFS2 rfl rfl rfl⟩
